import Mathlib

/-!
Verification development for the multi-agent content-recommendation system.

The definitions below are a shallow embedding of the repository's core data
transformations:

* `src/multi_agent_system/tools/google_calendar_busy_periods_tool.py`
  (busy-period extraction and sorting),
* `src/multi_agent_system/tools/tmdb_content_search_tool.py`
  (catalog candidate collection: dedup, shuffle, truncation, detail lookups),
* `src/multi_agent_system/tools/spotify_user_preference_tool.py`
  (podcast preference analysis, confidence score, episode sampling),
* `src/multi_agent_system/tools/tmdb_user_preference_tool.py`
  (user preference aggregation, genre weights),
* `src/multi_agent_system/tools/discord_feedback_tool.py`
  (satisfaction bucketing).

Library behaviour that is not part of the repository (the Python datetime
parser, `pytz` timezone tables, `random.sample`, HTTP fetches) is represented
by parameters of the embedded functions; each such parameter is documented at
its binding site.  Machine floats in the source only ever hold small decimal
literals and exact ratios of small integers, so they are modelled by `ℚ`.
-/

/-! ### Calendar date-time model

Python's `datetime` values are modelled by explicit records.  A naive local
date-time is `LocalDT`; an aware one (`AwareDT`) carries a UTC offset in
minutes.  `isoformat` reproduces `datetime.isoformat()` for whole-second
aware values ("YYYY-MM-DDTHH:MM:SS+HH:MM"), which is the exact string the
tool stores and sorts by.  `instant` is the point on the UTC timeline (in
seconds) that an aware date-time denotes. -/

/-- Naive local date-time (no timezone), mirroring a parsed `datetime`. -/
structure LocalDT where
  year : Nat
  month : Nat
  day : Nat
  hour : Nat
  minute : Nat
  second : Nat
deriving DecidableEq

/-- Timezone-aware date-time: local fields plus a UTC offset in minutes. -/
structure AwareDT where
  dt : LocalDT
  offsetMin : Int
deriving DecidableEq

/-- Decimal digit character of `n % 10`. -/
def digitChar10 : Nat → Char
  | 0 => '0' | 1 => '1' | 2 => '2' | 3 => '3' | 4 => '4'
  | 5 => '5' | 6 => '6' | 7 => '7' | 8 => '8' | _ => '9'

/-- Two-digit zero-padded decimal rendering (as in `datetime.isoformat`). -/
def pad2 (n : Nat) : String :=
  String.mk [digitChar10 ((n / 10) % 10), digitChar10 (n % 10)]

/-- Four-digit zero-padded decimal rendering (as in `datetime.isoformat`). -/
def pad4 (n : Nat) : String :=
  String.mk [digitChar10 ((n / 1000) % 10), digitChar10 ((n / 100) % 10),
             digitChar10 ((n / 10) % 10), digitChar10 (n % 10)]

/-- UTC-offset suffix of `datetime.isoformat`, e.g. `+02:00`. -/
def offsetSuffix (off : Int) : String :=
  (if off < 0 then "-" else "+") ++ pad2 (off.natAbs / 60) ++ ":" ++ pad2 (off.natAbs % 60)

/-- The string `datetime.isoformat()` produces for a whole-second aware
date-time.  This is the value stored under the `start`/`end` keys of a busy
period and the key the tool sorts by. -/
def isoformat (a : AwareDT) : String :=
  pad4 a.dt.year ++ "-" ++ pad2 a.dt.month ++ "-" ++ pad2 a.dt.day ++ "T" ++
    pad2 a.dt.hour ++ ":" ++ pad2 a.dt.minute ++ ":" ++ pad2 a.dt.second ++
    offsetSuffix a.offsetMin

/-- Is `y` a Gregorian leap year. -/
def isLeapYear (y : Nat) : Bool :=
  y % 4 == 0 && (y % 100 != 0 || y % 400 == 0)

/-- Days in the months strictly before month `m` of a non-leap year. -/
def cumMonthDays : Nat → Nat
  | 1 => 0 | 2 => 31 | 3 => 59 | 4 => 90 | 5 => 120 | 6 => 151
  | 7 => 181 | 8 => 212 | 9 => 243 | 10 => 273 | 11 => 304 | _ => 334

/-- One-based ordinal of a date within its year. -/
def dayOfYear (y m d : Nat) : Nat :=
  cumMonthDays m + (if 2 < m && isLeapYear y then 1 else 0) + d

/-- Gregorian day count of a civil date (proleptic, day 1 = 0001-01-01). -/
def civilDayNumber (y m d : Nat) : Int :=
  let py : Int := (y : Int) - 1
  365 * py + py / 4 - py / 100 + py / 400 + (dayOfYear y m d : Int)

/-- The instant (seconds on the UTC timeline) denoted by an aware date-time:
local clock seconds minus the UTC offset. -/
def instant (a : AwareDT) : Int :=
  civilDayNumber a.dt.year a.dt.month a.dt.day * 86400
    + (a.dt.hour : Int) * 3600 + (a.dt.minute : Int) * 60 + (a.dt.second : Int)
    - 60 * a.offsetMin

/-! ### Calendar events and busy periods

A raw Google Calendar event carries optional `start`/`end` sub-objects, each
holding either a `dateTime` string (timed events) or a `date` string
(all-day events).  String parsing by `datetime.fromisoformat` is library
behaviour: a field is modelled as `some v` when the string parses to `v`
and as `none` when `fromisoformat` raises `ValueError` (a malformed
string). -/

/-- One `start` or `end` sub-object of a raw calendar event.  `dateTime`
carries the parse result of the timestamp string (`none` = unparsable);
`date` carries the parse result of the date-only string, a naive midnight
local date-time. -/
inductive TimeField where
  | dateTime (raw : Option AwareDT)
  | date (raw : Option LocalDT)
deriving DecidableEq

/-- A raw calendar event: optional `start`/`end` sub-objects (`none` models
a missing or empty dict, which is falsy in Python) and the optional
`summary` string. -/
structure CalEvent where
  startInfo : Option TimeField
  endInfo : Option TimeField
  summary : Option String
deriving DecidableEq

/-- A busy-period record.  The Python dict stores the `isoformat` strings of
`startDT`/`endDT`; the record keeps the underlying date-times so that claims
about the start instant can be stated, and `isoformat startDT` is exactly
the stored `start` string. -/
structure BusyPeriod where
  startDT : AwareDT
  endDT : AwareDT
  title : String
  etype : String
deriving DecidableEq

/-- The sort key used by `extract_busy_periods`: the stored `start` string
(`busy_periods.sort(key=lambda x: x['start'])`). -/
def startKey (p : BusyPeriod) : String := isoformat p.startDT

/-- Lexicographic code-point comparison of character lists: the order
Python uses on `str` values. -/
def charsLe : List Char → List Char → Bool
  | [], _ => true
  | _ :: _, [] => false
  | a :: as, b :: bs =>
    if a.toNat < b.toNat then true
    else if b.toNat < a.toNat then false
    else charsLe as bs

/-- Python's `<=` on strings (code-point lexicographic). -/
def pyStrLe (s t : String) : Bool := charsLe s.data t.data

/-- The body of the per-event loop of `extract_busy_periods`, before the
final sort.  Parameters model library behaviour:

* `astz` is `datetime.astimezone(tz)` for the target timezone `tz` (an
  instant-preserving conversion given by the `pytz` timezone table);
* `replaceOffset` is the UTC offset (minutes) that
  `datetime.replace(tzinfo=tz)` attaches to a naive date-time for this `tz`.

Events missing either boundary are skipped (`continue`).  A malformed
timestamp raises `ValueError` in the source, and an `end` sub-object whose
kind differs from the `start` one raises `KeyError`; both are modelled by
`Except.error ()`, which aborts the whole extraction exactly as the
uncaught Python exception does. -/
def collect_busy_unsorted (astz : AwareDT → AwareDT) (replaceOffset : Int) :
    List CalEvent → Except Unit (List BusyPeriod)
  | [] => Except.ok []
  | e :: es =>
    match e.startInfo, e.endInfo with
    | none, _ => collect_busy_unsorted astz replaceOffset es
    | some _, none => collect_busy_unsorted astz replaceOffset es
    | some sf, some ef =>
      match sf with
      | TimeField.dateTime rawS =>
        match rawS with
        | none => Except.error ()
        | some aS =>
          match ef with
          | TimeField.date _ => Except.error ()
          | TimeField.dateTime rawE =>
            match rawE with
            | none => Except.error ()
            | some aE =>
              (collect_busy_unsorted astz replaceOffset es).map fun rest =>
                { startDT := astz aS, endDT := astz aE,
                  title := e.summary.getD "No title or event details are private",
                  etype := "timed" } :: rest
      | TimeField.date rawS =>
        match rawS with
        | none => Except.error ()
        | some dS =>
          match ef with
          | TimeField.dateTime _ => Except.error ()
          | TimeField.date rawE =>
            match rawE with
            | none => Except.error ()
            | some dE =>
              (collect_busy_unsorted astz replaceOffset es).map fun rest =>
                { startDT := { dt := dS, offsetMin := replaceOffset },
                  endDT := { dt := dE, offsetMin := replaceOffset },
                  title := e.summary.getD "No title or event details are private",
                  etype := "all_day" } :: rest

/-- `extract_busy_periods`: collect the periods, then
`busy_periods.sort(key=lambda x: x['start'])`.  Python's `list.sort` is a
stable ascending sort by the key; `List.insertionSort` with the key order
is stable and ascending, and a stable sort by a total preorder is unique,
so this is an exact model of the sort. -/
def extract_busy_periods (astz : AwareDT → AwareDT) (replaceOffset : Int)
    (events : List CalEvent) : Except Unit (List BusyPeriod) :=
  (collect_busy_unsorted astz replaceOffset events).map fun l =>
    l.insertionSort fun p q => pyStrLe (startKey p) (startKey q) = true

/-- The `busy_periods` list the tool's `_run` reports: the extraction
result, or the empty list when the per-event loop raised (the broad
`except Exception` handler returns `"busy_periods": []`). -/
def run_busy_periods (astz : AwareDT → AwareDT) (replaceOffset : Int)
    (events : List CalEvent) : List BusyPeriod :=
  match extract_busy_periods astz replaceOffset events with
  | Except.ok l => l
  | Except.error _ => []

/-- `pytz` `Europe/Berlin` conversion table for the instants used in the
development: around the DST fall-back of 2025-10-26, clocks show CEST
(+02:00) before 01:00 UTC and CET (+01:00) from 01:00 UTC on.  Each listed
pair is instant-preserving, exactly what `astimezone` returns there. -/
def berlinFall2025 (a : AwareDT) : AwareDT :=
  if a = { dt := ⟨2025, 10, 26, 0, 30, 0⟩, offsetMin := 0 } then
    { dt := ⟨2025, 10, 26, 2, 30, 0⟩, offsetMin := 120 }
  else if a = { dt := ⟨2025, 10, 26, 0, 45, 0⟩, offsetMin := 0 } then
    { dt := ⟨2025, 10, 26, 2, 45, 0⟩, offsetMin := 120 }
  else if a = { dt := ⟨2025, 10, 26, 1, 0, 0⟩, offsetMin := 0 } then
    { dt := ⟨2025, 10, 26, 2, 0, 0⟩, offsetMin := 60 }
  else if a = { dt := ⟨2025, 10, 26, 1, 15, 0⟩, offsetMin := 0 } then
    { dt := ⟨2025, 10, 26, 2, 15, 0⟩, offsetMin := 60 }
  else a

/-! ### Catalog candidate collector (`tmdb_content_search_tool.py`) -/

/-- A listing item of the movies path.  Fields not read or written by the
dedup/truncate/backfill logic under verification are omitted. -/
structure MItem where
  tmdb_id : Option Int
  title : String
  runtime_minutes : Option Int
  tagline : String
deriving DecidableEq

/-- Response of `_get_movie_details` as consumed by the movie loop:
`details.get("runtime", None)` and `details.get("tagline", "")`; `none`
models a missing key. -/
structure MovieDetails where
  runtime : Option Int
  tagline : Option String
deriving DecidableEq

/-- A listing item of the TV path (fields the loop reads or writes). -/
structure TVItem where
  tmdb_id : Option Int
  title : String
  episode_runtime_minutes : Option Int
  number_of_seasons : Option Int
  number_of_episodes : Option Int
  status : Option String
  networks : List String
  created_by : List String
deriving DecidableEq

/-- Response of `_get_tv_show_details` as consumed by the TV loop; `none`
models a missing (or `None`-valued) key, and `networks`/`created_by` hold
the already-extracted name lists. -/
structure TVDetails where
  episode_run_time : Option (List Int)
  number_of_seasons : Option Int
  number_of_episodes : Option Int
  status : Option String
  networks : List String
  created_by : List String
deriving DecidableEq

/-- `_get_average_episode_runtime`: 45 when the list is missing or empty,
otherwise the truncated mean (`int(sum/len)`). -/
def get_average_episode_runtime : Option (List Int) → Int
  | none => 45
  | some [] => 45
  | some xs => xs.sum / (xs.length : Int)

/-- Python truthiness of a JSON id: `None` and `0` are falsy
(`if tmdb_id and tmdb_id not in unique_items`). -/
def truthy_id : Option Int → Bool
  | some i => i != 0
  | none => false

/-- The dedup loop shared verbatim by `_get_movies`, `_get_tv_shows` and
`_analyze_real_content_data`: walk the concatenated buckets, keep an item
when its id is truthy and not seen yet, and record the id as seen. -/
def dedup_by_id {α : Type} (getId : α → Option Int) : List Int → List α → List α
  | _, [] => []
  | seen, x :: xs =>
    match getId x with
    | some i =>
      if i ≠ 0 ∧ i ∉ seen then x :: dedup_by_id getId (i :: seen) xs
      else dedup_by_id getId seen xs
    | none => dedup_by_id getId seen xs

/-- Merge the three buckets in order primary → secondary → discovery and
deduplicate by id, first occurrence winning. -/
def merge_dedup {α : Type} (getId : α → Option Int)
    (primary secondary discovery : List α) : List α :=
  dedup_by_id getId [] (primary ++ secondary ++ discovery)

/-- The truncation loop shared by `_get_movies` and `_get_tv_shows`:
process items in order, apply the per-item step `f` (which may perform a
detail lookup, counted in the second component), append, and break once
`len(results) >= cap` — the check runs after the append, so a first item is
emitted even when `cap = 0`.  Returns the results and the number of detail
lookups performed. -/
def trunc_loop {α : Type} (f : α → Nat → α × Nat) (cap : Nat) :
    List α → List α → Nat → List α × Nat
  | [], acc, n => (acc.reverse, n)
  | x :: xs, acc, n =>
    let p := f x n
    if cap ≤ (p.1 :: acc).length then ((p.1 :: acc).reverse, p.2)
    else trunc_loop f cap xs (p.1 :: acc) p.2

/-- Movie detail backfill: one `_get_movie_details` call (modelled by the
oracle `det`), then `runtime_minutes = details.get("runtime", None)` and
`tagline = details.get("tagline", "")`. -/
def backfill_movie (det : Int → MovieDetails) (item : MItem) : MItem :=
  match item.tmdb_id with
  | some i =>
    let d := det i
    { item with runtime_minutes := d.runtime, tagline := d.tagline.getD "" }
  | none => item

/-- Per-item step of the movie loop: a detail lookup happens exactly when
`fetch_detailed_info and item.get("runtime_minutes") is None and
item.get("tmdb_id")`. -/
def movie_step (fetch_detailed_info : Bool) (det : Int → MovieDetails)
    (item : MItem) (n : Nat) : MItem × Nat :=
  if fetch_detailed_info && item.runtime_minutes.isNone && truthy_id item.tmdb_id then
    (backfill_movie det item, n + 1)
  else (item, n)

/-- TV detail backfill (`item.update({...})` after `_get_tv_show_details`):
average episode runtime, seasons/episodes/status with fallback to the
item's own values, and the detail response's network/creator name lists. -/
def backfill_tv (det : Int → TVDetails) (item : TVItem) : TVItem :=
  match item.tmdb_id with
  | some i =>
    let d := det i
    { item with
      episode_runtime_minutes := some (get_average_episode_runtime d.episode_run_time),
      number_of_seasons := d.number_of_seasons.orElse fun _ => item.number_of_seasons,
      number_of_episodes := d.number_of_episodes.orElse fun _ => item.number_of_episodes,
      status := some (d.status.getD (item.status.getD "Unknown")),
      networks := d.networks,
      created_by := d.created_by }
  | none => item

/-- Per-item step of the TV loop: a detail lookup happens exactly when
`fetch_detailed_info and item.get("tmdb_id")`. -/
def tv_step (fetch_detailed_info : Bool) (det : Int → TVDetails)
    (item : TVItem) (n : Nat) : TVItem × Nat :=
  if fetch_detailed_info && truthy_id item.tmdb_id then (backfill_tv det item, n + 1)
  else (item, n)

/-- Results-and-lookups part of `_get_movies`, applied to the shuffled
deduplicated list (`random.shuffle` is library randomness; theorems
quantify over any permutation of the deduplicated merge). -/
def get_movies_results (fetch_detailed_info : Bool) (det : Int → MovieDetails)
    (cap : Nat) (shuffled : List MItem) : List MItem × Nat :=
  trunc_loop (movie_step fetch_detailed_info det) cap shuffled [] 0

/-- Results-and-lookups part of `_get_tv_shows`, applied to the shuffled
deduplicated list. -/
def get_tv_results (fetch_detailed_info : Bool) (det : Int → TVDetails)
    (cap : Nat) (shuffled : List TVItem) : List TVItem × Nat :=
  trunc_loop (tv_step fetch_detailed_info det) cap shuffled [] 0

/-! ### Spotify podcast preference analyzer -/

/-- A saved show's `show` sub-object; `none` in an optional field models a
missing key (defaults are applied at each call site as in the source). -/
structure SpShow where
  id : Option String
  name : Option String
  description : Option String
  publisher : Option String
  languages : Option (List String)
  explicit : Option Bool
deriving DecidableEq

/-- One element of the saved-shows list: `item.get("show", {})`, with
`none` modelling a missing or empty (falsy) `show` sub-object. -/
structure SavedShowItem where
  showData : Option SpShow
deriving DecidableEq

/-- The literal genre-keyword table of `_build_podcast_genre_mapping`. -/
def podcast_genre_mapping : List (String × List String) :=
  [("comedy", ["comedy", "humor", "entertainment"]),
   ("news", ["news", "politics", "current events", "journalism"]),
   ("business", ["business", "entrepreneurship", "finance", "investing"]),
   ("technology", ["technology", "tech", "science", "innovation"]),
   ("education", ["education", "learning", "academic", "educational"]),
   ("health", ["health", "fitness", "wellness", "mental health", "medicine"]),
   ("true_crime", ["true crime", "crime", "mystery", "investigation"]),
   ("history", ["history", "historical", "culture", "documentary"]),
   ("society", ["society", "culture", "philosophy", "religion", "spirituality"]),
   ("arts", ["arts", "music", "film", "literature", "creative"]),
   ("sports", ["sports", "athletics", "fitness", "recreation"]),
   ("lifestyle", ["lifestyle", "personal development", "self-help", "relationships"]),
   ("storytelling", ["storytelling", "fiction", "drama", "narrative"]),
   ("interview", ["interview", "talk show", "conversation", "discussion"])]

/-- `_infer_genre_from_text`.  `kwInText t kw` models the Python substring
test `kw in t` (library string behaviour).  A genre is recorded at most
once per text (the inner loop breaks after the first matching keyword,
which is `List.any`). -/
def infer_genre_from_text (kwInText : String → String → Bool) (text : String) :
    List String :=
  if text = "" then []
  else
    (podcast_genre_mapping.filter fun p =>
        p.2.any fun kw => kwInText text.toLower kw).map Prod.fst

/-- The `f"{show_name} {show_description}"` text analysed for a show. -/
def show_text (sh : SpShow) : String :=
  sh.name.getD "" ++ " " ++ sh.description.getD ""

/-- Genre occurrences fed to the `Counter` of `_analyze_show_preferences`:
one occurrence per show per inferred genre (shows with a falsy `show`
sub-object are skipped). -/
def genre_occurrences_of_shows (kwInText : String → String → Bool)
    (saved : List SavedShowItem) : List String :=
  saved.flatMap fun item =>
    match item.showData with
    | some sh => infer_genre_from_text kwInText (show_text sh)
    | none => []

/-- Language occurrences (`show.get("languages", ["en"])`, one count per
listed language per show). -/
def language_occurrences_of_shows (saved : List SavedShowItem) : List String :=
  saved.flatMap fun item =>
    match item.showData with
    | some sh => sh.languages.getD ["en"]
    | none => []

/-- Publisher occurrences: `show.get("publisher", "Unknown")`, counted only
when different from `"Unknown"`. -/
def publisher_occurrences_of_shows (saved : List SavedShowItem) : List String :=
  saved.flatMap fun item =>
    match item.showData with
    | some sh =>
      let p := sh.publisher.getD "Unknown"
      if p ≠ "Unknown" then [p] else []
    | none => []

/-- Keys of a `Counter` built from an occurrence list, with their counts
(`most_common` additionally reorders by descending count; no claim below
depends on entry order, only on the key set and the counts). -/
def counter_entries (occ : List String) : List (String × Nat) :=
  occ.dedup.map fun s => (s, occ.count s)

/-- Episode durations collected for a show id: the tool takes the cached or
freshly fetched episode list (modelled by the oracle `epDurations`, library
fetch behaviour) and keeps the strictly positive `duration_minutes` values
(`_get_episode_durations_from_episodes`). -/
def durations_for_shows (epDurations : String → List Nat)
    (saved : List SavedShowItem) : List Nat :=
  saved.flatMap fun item =>
    match item.showData with
    | some sh =>
      match sh.id with
      | some sid => (epDurations sid).filter fun d => 0 < d
      | none => []
    | none => []

/-- Result record of `_analyze_show_preferences` (the fields the claims
read).  `publishers` is truncated to ten entries as `most_common(10)`
does; only its length is consumed downstream. -/
structure ShowAnalysis where
  genres : List (String × ℚ)
  publishers : List (String × Nat)
  languages : List (String × Nat)
  explicit_tolerance : ℚ
  avg_episode_duration : Nat
  total_shows : Nat
deriving DecidableEq

/-- `_analyze_show_preferences`: early empty-input return, otherwise genre
weights `count / total_shows`, publisher/language counters, explicit
tolerance and average episode duration (integer division). -/
def analyze_show_preferences (kwInText : String → String → Bool)
    (epDurations : String → List Nat) (saved : List SavedShowItem) : ShowAnalysis :=
  if saved = [] then
    { genres := [], publishers := [], languages := [],
      explicit_tolerance := 0, avg_episode_duration := 0, total_shows := 0 }
  else
    let total := saved.length
    let gocc := genre_occurrences_of_shows kwInText saved
    let durations := durations_for_shows epDurations saved
    let explicitCount := saved.countP fun item =>
      match item.showData with
      | some sh => sh.explicit.getD false
      | none => false
    { genres := (counter_entries gocc).map fun p => (p.1, (p.2 : ℚ) / (total : ℚ)),
      publishers := (counter_entries (publisher_occurrences_of_shows saved)).take 10,
      languages := counter_entries (language_occurrences_of_shows saved),
      explicit_tolerance := (explicitCount : ℚ) / (total : ℚ),
      avg_episode_duration := if durations = [] then 0 else durations.sum / durations.length,
      total_shows := total }

/-- `_analyze_listening_patterns_from_shows`, reduced to the
`listening_frequency` field the claims read: "none" for an empty saved
list, otherwise thresholds on the saved-show count. -/
def listening_frequency_of (saved : List SavedShowItem) : String :=
  if saved = [] then "none"
  else if 20 ≤ saved.length then "heavy_listener"
  else if 10 ≤ saved.length then "regular_listener"
  else if 3 ≤ saved.length then "casual_listener"
  else "light_listener"

/-- `_calculate_confidence_score`: six bounded factors summed and clamped
at 1.0.  The third factor compares the number of shows with a truthy
description against `len(saved_shows) * 0.8` and `* 0.5`. -/
def calculate_confidence_score (saved : List SavedShowItem)
    (analysis : ShowAnalysis) : ℚ :=
  let showCount := saved.length
  let f1 : ℚ :=
    if 10 ≤ showCount then 0.3 else if 5 ≤ showCount then 0.2
    else if 1 ≤ showCount then 0.1 else 0
  let genreCount := analysis.genres.length
  let f2 : ℚ :=
    if 5 ≤ genreCount then 0.2 else if 3 ≤ genreCount then 0.15
    else if 1 ≤ genreCount then 0.1 else 0
  let described := saved.countP fun item =>
    match item.showData with
    | some sh =>
      match sh.description with
      | some dsc => dsc != ""
      | none => false
    | none => false
  let f3 : ℚ :=
    if (showCount : ℚ) * 0.8 ≤ (described : ℚ) then 0.2
    else if (showCount : ℚ) * 0.5 ≤ (described : ℚ) then 0.15
    else if 0 < described then 0.1 else 0.05
  let f4 : ℚ := if 0 < analysis.avg_episode_duration then 0.15 else 0.05
  let f5 : ℚ := if 2 ≤ analysis.languages.length then 0.1 else 0.05
  let f6 : ℚ := if 5 ≤ analysis.publishers.length then 0.05 else 0.02
  min 1 (f1 + f2 + f3 + f4 + f5 + f6)

/-- The simplified output record of `_format_analysis_output` (fields the
claims read). -/
structure FormattedPreferences where
  confidence_score : ℚ
  genres : List (String × ℚ)
  preferred_duration_minutes : Nat
  explicit_tolerance : ℚ
  primary_genre : String
  listening_frequency : String
  total_shows : Nat
deriving DecidableEq

/-- Python `max(genres.items(), key=lambda x: x[1])[0] if genres else
"unknown"`: the first entry achieving the maximal weight. -/
def primary_genre_of (genres : List (String × ℚ)) : String :=
  match genres with
  | [] => "unknown"
  | g :: gs => (gs.foldl (fun best p => if best.2 < p.2 then p else best) g).1

/-- `_format_analysis_output` assembling the preference profile from the
show analysis, the listening patterns and the confidence score. -/
def format_analysis_output (analysis : ShowAnalysis) (freq : String)
    (confidence : ℚ) : FormattedPreferences :=
  { confidence_score := confidence,
    genres := analysis.genres,
    preferred_duration_minutes := analysis.avg_episode_duration,
    explicit_tolerance := analysis.explicit_tolerance,
    primary_genre := primary_genre_of analysis.genres,
    listening_frequency := freq,
    total_shows := analysis.total_shows }

/-- The zero-saved-shows run of the analyzer pipeline (`_run` with
`saved_shows` empty, after the episode-candidate step which is vacuous on
no shows). -/
def podcast_profile (kwInText : String → String → Bool)
    (epDurations : String → List Nat) (saved : List SavedShowItem) :
    FormattedPreferences :=
  let analysis := analyze_show_preferences kwInText epDurations saved
  format_analysis_output analysis (listening_frequency_of saved)
    (calculate_confidence_score saved analysis)

/-- `_apply_episode_selection_strategy`: return everything when the
flattened list fits under the cap, otherwise `random.sample(episodes,
max_candidates)`.  `sample` models `random.sample`, whose library contract
(a list of `k` elements chosen from the population) is assumed where
needed. -/
def apply_episode_selection_strategy {α : Type} (sample : List α → Nat → List α)
    (episodes : List α) (max_candidates : Nat) : List α :=
  if episodes.length ≤ max_candidates then episodes
  else sample episodes max_candidates

/-! ### TMDB user preference aggregator -/

/-- A content item of `_analyze_real_content_data` (fields read by the
dedup and genre analysis under verification). -/
structure CItem where
  id : Option Int
  genre_ids : List Int
deriving DecidableEq

/-- The literal fallback id→name genre table (`_get_fallback_genres`). -/
def fallback_genre_table : List (Int × String) :=
  [(28, "Action"), (12, "Adventure"), (16, "Animation"), (35, "Comedy"),
   (80, "Crime"), (99, "Documentary"), (18, "Drama"), (10751, "Family"),
   (14, "Fantasy"), (36, "History"), (27, "Horror"), (10402, "Music"),
   (9648, "Mystery"), (10749, "Romance"), (878, "Science Fiction"),
   (10770, "TV Movie"), (53, "Thriller"), (10752, "War"), (37, "Western"),
   (10759, "Action and Adventure"), (10762, "Kids"), (10763, "News"),
   (10764, "Reality"), (10765, "Sci-Fi and Fantasy"), (10766, "Soap"),
   (10767, "Talk"), (10768, "War and Politics")]

/-- `_get_genre_name` when the cache holds the fallback table:
`genre_map.get(genre_id, f"Unknown_Genre_...")`. -/
def fallback_genre_name (gid : Int) : String :=
  match fallback_genre_table.find? fun p => p.1 == gid with
  | some p => p.2
  | none => "Unknown_Genre_" ++ toString gid

/-- The deduplicated union of favorites, rated and watchlist
(`_analyze_real_content_data`, same loop as the catalog collector's). -/
def all_content (favorites rated watchlist : List CItem) : List CItem :=
  dedup_by_id CItem.id [] (favorites ++ rated ++ watchlist)

/-- Genre-name occurrences over the analysed content: one per
`genre_ids` entry per item, resolved through `gname` (the genre cache,
`_get_genre_name`). -/
def genre_occurrences_of_content (gname : Int → String) (content : List CItem) :
    List String :=
  content.flatMap fun it => it.genre_ids.map gname

/-- Python `round(x, 2)` on the exact quotient, modelled on `ℚ` as rounding
to the nearest multiple of 1/100 (Python breaks ties on the underlying
binary floats; no claim below is decided by a tie). -/
def round2 (q : ℚ) : ℚ := (round (100 * q) : ℤ) / 100

/-- The genre weight `round(count/total_items, 2)` that
`_analyze_real_content_data` assigns to genre name `g`. -/
def favorite_genre_weight (gname : Int → String)
    (favorites rated watchlist : List CItem) (g : String) : ℚ :=
  let content := all_content favorites rated watchlist
  round2 (((genre_occurrences_of_content gname content).count g : ℚ) /
    (content.length : ℚ))

/-! ### Discord feedback analyzer -/

/-- Aggregated per-emoji reaction totals of `_analyze_feedback_patterns`
(👍 `up`, 👎 `down`, ✅ `check`, ❌ `cross`, ⭐ `star`, 🕐 `clock`). -/
structure ReactionTotals where
  up : Nat
  down : Nat
  check : Nat
  cross : Nat
  star : Nat
  clock : Nat
deriving DecidableEq

/-- Positive reactions: 👍 + ✅ + ⭐. -/
def positive_reactions (t : ReactionTotals) : Nat := t.up + t.check + t.star

/-- Negative reactions: 👎 + ❌. -/
def negative_reactions (t : ReactionTotals) : Nat := t.down + t.cross

/-- The satisfaction score: `positive / (positive + negative)` with a 0.5
default on a zero denominator. -/
def satisfaction_score (pos neg : Nat) : ℚ :=
  if 0 < pos + neg then (pos : ℚ) / ((pos : ℚ) + (neg : ℚ)) else 0.5

/-- `_categorize_satisfaction`: closed-above buckets at 0.8 / 0.6 / 0.4. -/
def categorize_satisfaction (score : ℚ) : String :=
  if 0.8 ≤ score then "high"
  else if 0.6 ≤ score then "moderate"
  else if 0.4 ≤ score then "low"
  else "very_low"

/-! ### Concrete fixtures -/

/-- Timed event starting 2025-10-26T00:30:00Z (raw strings
`2025-10-26T00:30:00Z` / `...T00:45:00Z`). -/
def evA : CalEvent :=
  { startInfo := some (TimeField.dateTime (some ⟨⟨2025, 10, 26, 0, 30, 0⟩, 0⟩)),
    endInfo := some (TimeField.dateTime (some ⟨⟨2025, 10, 26, 0, 45, 0⟩, 0⟩)),
    summary := some "A" }

/-- Timed event starting 2025-10-26T01:00:00Z, after the Berlin DST
fall-back. -/
def evB : CalEvent :=
  { startInfo := some (TimeField.dateTime (some ⟨⟨2025, 10, 26, 1, 0, 0⟩, 0⟩)),
    endInfo := some (TimeField.dateTime (some ⟨⟨2025, 10, 26, 1, 15, 0⟩, 0⟩)),
    summary := some "B" }

/-- The busy period built from `evA` (localized to CEST, +02:00). -/
def periodA : BusyPeriod :=
  { startDT := ⟨⟨2025, 10, 26, 2, 30, 0⟩, 120⟩,
    endDT := ⟨⟨2025, 10, 26, 2, 45, 0⟩, 120⟩, title := "A", etype := "timed" }

/-- The busy period built from `evB` (localized to CET, +01:00). -/
def periodB : BusyPeriod :=
  { startDT := ⟨⟨2025, 10, 26, 2, 0, 0⟩, 60⟩,
    endDT := ⟨⟨2025, 10, 26, 2, 15, 0⟩, 60⟩, title := "B", etype := "timed" }

/-- A well-formed timed event. -/
def goodEv : CalEvent :=
  { startInfo := some (TimeField.dateTime (some ⟨⟨2024, 1, 2, 9, 0, 0⟩, 0⟩)),
    endInfo := some (TimeField.dateTime (some ⟨⟨2024, 1, 2, 10, 0, 0⟩, 0⟩)),
    summary := some "Standup" }

/-- An event whose start `dateTime` string is malformed (for example
`"not-a-date"`), so `datetime.fromisoformat` raises `ValueError`. -/
def badEv : CalEvent :=
  { startInfo := some (TimeField.dateTime none),
    endInfo := some (TimeField.dateTime (some ⟨⟨2024, 1, 2, 11, 0, 0⟩, 0⟩)),
    summary := some "Broken" }

/-- The busy period built from `goodEv` under the identity conversion. -/
def goodPeriod : BusyPeriod :=
  { startDT := ⟨⟨2024, 1, 2, 9, 0, 0⟩, 0⟩, endDT := ⟨⟨2024, 1, 2, 10, 0, 0⟩, 0⟩,
    title := "Standup", etype := "timed" }

/-! ### Sorting lemmas (stable sort by the start string) -/

theorem charsLe_refl : ∀ s : List Char, charsLe s s = true
  | [] => rfl
  | a :: as => by simp [charsLe, charsLe_refl as]

theorem charsLe_total : ∀ s t : List Char, charsLe s t = true ∨ charsLe t s = true
  | [], _ => Or.inl rfl
  | _ :: _, [] => Or.inr rfl
  | a :: as, b :: bs => by
    rcases Nat.lt_trichotomy a.toNat b.toNat with h | h | h
    · exact Or.inl (by simp [charsLe, h])
    · have h1 : ¬ a.toNat < b.toNat := by omega
      have h2 : ¬ b.toNat < a.toNat := by omega
      rcases charsLe_total as bs with ih | ih
      · exact Or.inl (by simp [charsLe, h1, h2, ih])
      · exact Or.inr (by simp [charsLe, h1, h2, ih])
    · exact Or.inr (by simp [charsLe, h])

theorem charsLe_trans :
    ∀ s t u : List Char, charsLe s t = true → charsLe t u = true → charsLe s u = true
  | [], _, _ => fun _ _ => rfl
  | _ :: _, [], _ => fun h _ => by simp [charsLe] at h
  | _ :: _, _ :: _, [] => fun _ h => by simp [charsLe] at h
  | a :: as, b :: bs, c :: cs => fun h1 h2 => by
    by_cases hab : a.toNat < b.toNat
    · by_cases hbc : b.toNat < c.toNat
      · simp [charsLe, show a.toNat < c.toNat by omega]
      · by_cases hcb : c.toNat < b.toNat
        · simp [charsLe, hbc, hcb] at h2
        · simp [charsLe, show a.toNat < c.toNat by omega]
    · by_cases hba : b.toNat < a.toNat
      · simp [charsLe, hab, hba] at h1
      · by_cases hbc : b.toNat < c.toNat
        · simp [charsLe, show a.toNat < c.toNat by omega]
        · by_cases hcb : c.toNat < b.toNat
          · simp [charsLe, hbc, hcb] at h2
          · simp only [charsLe, if_neg hab, if_neg hba] at h1
            simp only [charsLe, if_neg hbc, if_neg hcb] at h2
            simp only [charsLe, if_neg (show ¬ a.toNat < c.toNat by omega),
              if_neg (show ¬ c.toNat < a.toNat by omega)]
            exact charsLe_trans as bs cs h1 h2

theorem pyStrLe_refl (s : String) : pyStrLe s s = true := charsLe_refl s.data

theorem pyStrLe_total (s t : String) : pyStrLe s t = true ∨ pyStrLe t s = true :=
  charsLe_total s.data t.data

theorem pyStrLe_trans {s t u : String} (h1 : pyStrLe s t = true)
    (h2 : pyStrLe t u = true) : pyStrLe s u = true :=
  charsLe_trans s.data t.data u.data h1 h2

theorem filter_orderedInsert {α : Type} (key : α → String) (s : String) (x : α)
    (t : List α) :
    ((t.orderedInsert (fun a b => pyStrLe (key a) (key b) = true) x).filter
        fun a => key a == s) =
      if key x == s then x :: (t.filter fun a => key a == s)
      else t.filter fun a => key a == s := by
  induction t with
  | nil => by_cases hx : (key x == s) = true <;> simp [List.orderedInsert, hx]
  | cons b t ih =>
    by_cases hxb : pyStrLe (key x) (key b) = true
    · simp only [List.orderedInsert, if_pos hxb, List.filter_cons]
    · have key_ne : (key x == s) = true → ¬(key b == s) = true := fun hx hbx =>
        hxb (by
          have hbk : key b = key x := (beq_iff_eq.mp hbx).trans (beq_iff_eq.mp hx).symm
          rw [← hbk]
          exact pyStrLe_refl (key b))
      simp only [List.orderedInsert, if_neg hxb, List.filter_cons, ih]
      by_cases hx : (key x == s) = true
      · simp only [if_pos hx, if_neg (key_ne hx)]
      · simp only [if_neg hx]

theorem filter_insertionSort {α : Type} (key : α → String) (s : String) (l : List α) :
    ((l.insertionSort fun a b => pyStrLe (key a) (key b) = true).filter
        fun a => key a == s) =
      l.filter fun a => key a == s := by
  induction l with
  | nil => rfl
  | cons b l ih =>
    simp only [List.insertionSort]
    rw [filter_orderedInsert]
    simp only [ih, List.filter_cons]

/-- C1 (amended): for every event list on which the per-event loop
succeeds, `extract_busy_periods` returns the collected periods sorted
ascending by the ISO-8601 string of the localized start (code-point
lexicographic string order, the actual sort key of the code), as a
permutation of the collected list, with ties (equal start strings) broken
by original input order (the filter equation: the sublist with any fixed
start string is unchanged).  This coincides with ascending start instants
whenever all periods carry one UTC offset, but not in general (see the
counterexample theorem). -/
theorem extract_busy_periods_sorted_by_start_string
    (astz : AwareDT → AwareDT) (replaceOffset : Int) (events : List CalEvent)
    (m : List BusyPeriod)
    (h : collect_busy_unsorted astz replaceOffset events = Except.ok m) :
    ∃ l, extract_busy_periods astz replaceOffset events = Except.ok l ∧
      l.Pairwise (fun p q => pyStrLe (startKey p) (startKey q) = true) ∧
      l.Perm m ∧
      ∀ s : String,
        (l.filter fun p => startKey p == s) = m.filter fun p => startKey p == s := by
  refine ⟨m.insertionSort (fun p q => pyStrLe (startKey p) (startKey q) = true),
    ?_, ?_, ?_, ?_⟩
  · unfold extract_busy_periods
    rw [h]
    rfl
  · exact @List.sorted_insertionSort BusyPeriod
      (fun p q => pyStrLe (startKey p) (startKey q) = true) (fun _ _ => inferInstance)
      ⟨fun a b => pyStrLe_total _ _⟩ ⟨fun _ _ _ hab hbc => pyStrLe_trans hab hbc⟩ m
  · exact List.perm_insertionSort _ m
  · intro s
    exact filter_insertionSort startKey s m

/-- Witness for the C1 theorem at the two-event Berlin DST input. -/
theorem extract_busy_periods_sorted_by_start_string_witness :
    ∃ l, extract_busy_periods berlinFall2025 0 [evA, evB] = Except.ok l ∧
      l.Pairwise (fun p q => pyStrLe (startKey p) (startKey q) = true) ∧
      l.Perm [periodA, periodB] ∧
      ∀ s : String,
        (l.filter fun p => startKey p == s) =
          [periodA, periodB].filter fun p => startKey p == s :=
  extract_busy_periods_sorted_by_start_string berlinFall2025 0 [evA, evB]
    [periodA, periodB] (by rfl)

/-- C1 counterexample: for the raw events starting 2025-10-26T00:30:00Z
and 2025-10-26T01:00:00Z in timezone Europe/Berlin (the DST fall-back),
the tool returns the periods ordered by their localized start strings
(`periodB` then `periodA`), which is *not* ascending by start instant:
`periodB` starts 1800 seconds after `periodA`. -/
theorem extract_busy_periods_not_sorted_by_instant :
    extract_busy_periods berlinFall2025 0 [evA, evB] =
      Except.ok [periodB, periodA] ∧
    ¬ ([periodB, periodA].Pairwise fun p q =>
        instant p.startDT ≤ instant q.startDT) :=
  ⟨by rfl, by decide⟩

/-- C3: the per-event loop has no per-record exception handling, so one
malformed date aborts the entire extraction: with a well-formed event
followed by a malformed one the extraction errors and `_run` reports an
empty `busy_periods` list, even though the well-formed event alone yields
its busy period. -/
theorem malformed_date_aborts_extraction :
    extract_busy_periods (fun a => a) 0 [goodEv, badEv] = Except.error () ∧
    run_busy_periods (fun a => a) 0 [goodEv, badEv] = [] ∧
    extract_busy_periods (fun a => a) 0 [goodEv] = Except.ok [goodPeriod] :=
  ⟨by rfl, by rfl, by rfl⟩

/-! ### Dedup and truncation lemmas -/

theorem dedup_by_id_cons_none {α : Type} (getId : α → Option Int)
    (seen : List Int) (y : α) (ys : List α) (h : getId y = none) :
    dedup_by_id getId seen (y :: ys) = dedup_by_id getId seen ys := by
  simp [dedup_by_id, h]

theorem dedup_by_id_cons_kept {α : Type} (getId : α → Option Int)
    (seen : List Int) (y : α) (ys : List α) {j : Int} (h : getId y = some j)
    (hc : j ≠ 0 ∧ j ∉ seen) :
    dedup_by_id getId seen (y :: ys) = y :: dedup_by_id getId (j :: seen) ys := by
  simp [dedup_by_id, h, if_pos hc]

theorem dedup_by_id_cons_dropped {α : Type} (getId : α → Option Int)
    (seen : List Int) (y : α) (ys : List α) {j : Int} (h : getId y = some j)
    (hc : ¬(j ≠ 0 ∧ j ∉ seen)) :
    dedup_by_id getId seen (y :: ys) = dedup_by_id getId seen ys := by
  simp [dedup_by_id, h, if_neg hc]

theorem mem_dedup_by_id {α : Type} (getId : α → Option Int) :
    ∀ (seen : List Int) (l : List α) (x : α), x ∈ dedup_by_id getId seen l →
      x ∈ l ∧ ∃ i, getId x = some i ∧ i ≠ 0 ∧ i ∉ seen := by
  intro seen l
  induction l generalizing seen with
  | nil => intro x hx; simp [dedup_by_id] at hx
  | cons y ys ih =>
    intro x hx
    cases hg : getId y with
    | none =>
      rw [dedup_by_id_cons_none getId seen y ys hg] at hx
      obtain ⟨h1, i, h2⟩ := ih seen x hx
      exact ⟨List.mem_cons_of_mem _ h1, i, h2⟩
    | some j =>
      by_cases hc : j ≠ 0 ∧ j ∉ seen
      · rw [dedup_by_id_cons_kept getId seen y ys hg hc] at hx
        rcases List.mem_cons.mp hx with h | h
        · subst h
          exact ⟨List.mem_cons_self _ _, j, hg, hc.1, hc.2⟩
        · obtain ⟨h1, i, hgi, hi0, hiseen⟩ := ih (j :: seen) x h
          exact ⟨List.mem_cons_of_mem _ h1, i, hgi, hi0,
            fun hmem => hiseen (List.mem_cons_of_mem _ hmem)⟩
      · rw [dedup_by_id_cons_dropped getId seen y ys hg hc] at hx
        obtain ⟨h1, i, h2⟩ := ih seen x hx
        exact ⟨List.mem_cons_of_mem _ h1, i, h2⟩

theorem dedup_by_id_pairwise {α : Type} (getId : α → Option Int) :
    ∀ (seen : List Int) (l : List α),
      (dedup_by_id getId seen l).Pairwise fun a b => getId a ≠ getId b := by
  intro seen l
  induction l generalizing seen with
  | nil => simp [dedup_by_id]
  | cons y ys ih =>
    cases hg : getId y with
    | none =>
      rw [dedup_by_id_cons_none getId seen y ys hg]
      exact ih seen
    | some j =>
      by_cases hc : j ≠ 0 ∧ j ∉ seen
      · rw [dedup_by_id_cons_kept getId seen y ys hg hc]
        refine List.Pairwise.cons ?_ (ih (j :: seen))
        intro b hb
        obtain ⟨-, i, hgi, -, hiseen⟩ := mem_dedup_by_id getId (j :: seen) ys b hb
        rw [hg, hgi]
        intro heq
        injection heq with heq
        subst heq
        exact hiseen (List.mem_cons_self _ _)
      · rw [dedup_by_id_cons_dropped getId seen y ys hg hc]
        exact ih seen

theorem dedup_by_id_find_eq {α : Type} (getId : α → Option Int) (i : Int)
    (hi : i ≠ 0) :
    ∀ (seen : List Int) (l : List α), i ∉ seen →
      ((dedup_by_id getId seen l).find? fun x => getId x == some i) =
        l.find? fun x => getId x == some i := by
  intro seen l
  induction l generalizing seen with
  | nil => intro _; rfl
  | cons y ys ih =>
    intro hseen
    cases hg : getId y with
    | none =>
      rw [dedup_by_id_cons_none getId seen y ys hg,
        List.find?_cons_of_neg _ (by simp [hg])]
      exact ih seen hseen
    | some j =>
      by_cases hc : j ≠ 0 ∧ j ∉ seen
      · rw [dedup_by_id_cons_kept getId seen y ys hg hc]
        by_cases hji : j = i
        · subst hji
          rw [List.find?_cons_of_pos _ (by simp [hg]),
            List.find?_cons_of_pos _ (by simp [hg])]
        · rw [List.find?_cons_of_neg _ (by simp [hg, hji]),
            List.find?_cons_of_neg _ (by simp [hg, hji])]
          refine ih (j :: seen) ?_
          intro hmem
          rcases List.mem_cons.mp hmem with h | h
          · exact hji h.symm
          · exact hseen h
      · rw [dedup_by_id_cons_dropped getId seen y ys hg hc]
        have hji : j ≠ i := by
          intro h
          subst h
          rcases not_and_or.mp hc with h0 | hs
          · exact h0 hi
          · exact hseen (not_not.mp hs)
        rw [List.find?_cons_of_neg _ (by simp [hg, hji])]
        exact ih seen hseen

theorem trunc_loop_length_le {α : Type} (f : α → Nat → α × Nat) (cap : Nat) :
    ∀ (l acc : List α) (n : Nat), acc.length < cap →
      ((trunc_loop f cap l acc n).1).length ≤ cap := by
  intro l
  induction l with
  | nil =>
    intro acc n h
    simpa [trunc_loop] using h.le
  | cons x xs ih =>
    intro acc n h
    simp only [trunc_loop]
    by_cases hb : cap ≤ ((f x n).1 :: acc).length
    · rw [if_pos hb]
      simp only [List.length_reverse, List.length_cons]
      simp only [List.length_cons] at hb
      omega
    · rw [if_neg hb]
      exact ih _ _ (not_le.mp hb)

theorem trunc_loop_count_le {α : Type} (f : α → Nat → α × Nat) (cap : Nat)
    (hf : ∀ x n, (f x n).2 ≤ n + 1) :
    ∀ (l acc : List α) (n : Nat), acc.length < cap →
      (trunc_loop f cap l acc n).2 ≤ n + (cap - acc.length) := by
  intro l
  induction l with
  | nil =>
    intro acc n h
    simp only [trunc_loop]
    omega
  | cons x xs ih =>
    intro acc n h
    simp only [trunc_loop]
    by_cases hb : cap ≤ ((f x n).1 :: acc).length
    · rw [if_pos hb]
      have := hf x n
      omega
    · rw [if_neg hb]
      have h2 : ((f x n).1 :: acc).length < cap := not_le.mp hb
      have h3 := ih ((f x n).1 :: acc) (f x n).2 h2
      have h4 := hf x n
      simp only [List.length_cons] at h2 h3
      omega

theorem trunc_loop_mem {α : Type} (f : α → Nat → α × Nat) (cap : Nat) :
    ∀ (l acc : List α) (n : Nat) (x : α), x ∈ (trunc_loop f cap l acc n).1 →
      x ∈ acc ∨ ∃ y m, y ∈ l ∧ x = (f y m).1 := by
  intro l
  induction l with
  | nil =>
    intro acc n x hx
    simp only [trunc_loop, List.mem_reverse] at hx
    exact Or.inl hx
  | cons z zs ih =>
    intro acc n x hx
    simp only [trunc_loop] at hx
    by_cases hb : cap ≤ ((f z n).1 :: acc).length
    · rw [if_pos hb] at hx
      simp only [List.mem_reverse, List.mem_cons] at hx
      rcases hx with h | h
      · exact Or.inr ⟨z, n, List.mem_cons_self _ _, h⟩
      · exact Or.inl h
    · rw [if_neg hb] at hx
      rcases ih _ _ x hx with h | ⟨y, m, hy, hxy⟩
      · rcases List.mem_cons.mp h with h | h
        · exact Or.inr ⟨z, n, List.mem_cons_self _ _, h⟩
        · exact Or.inl h
      · exact Or.inr ⟨y, m, List.mem_cons_of_mem _ hy, hxy⟩

theorem movie_step_id (fetch : Bool) (det : Int → MovieDetails) (x : MItem)
    (n : Nat) : ((movie_step fetch det x n).1).tmdb_id = x.tmdb_id := by
  unfold movie_step
  by_cases h : (fetch && x.runtime_minutes.isNone && truthy_id x.tmdb_id) = true
  · rw [if_pos h]
    unfold backfill_movie
    cases hx : x.tmdb_id <;> simp [hx]
  · rw [if_neg h]

theorem tv_step_id (fetch : Bool) (det : Int → TVDetails) (x : TVItem)
    (n : Nat) : ((tv_step fetch det x n).1).tmdb_id = x.tmdb_id := by
  unfold tv_step
  by_cases h : (fetch && truthy_id x.tmdb_id) = true
  · rw [if_pos h]
    unfold backfill_tv
    cases hx : x.tmdb_id <;> simp [hx]
  · rw [if_neg h]

theorem movie_step_count (fetch : Bool) (det : Int → MovieDetails) (x : MItem)
    (n : Nat) : (movie_step fetch det x n).2 ≤ n + 1 := by
  unfold movie_step
  by_cases h : (fetch && x.runtime_minutes.isNone && truthy_id x.tmdb_id) = true
  · rw [if_pos h]
  · rw [if_neg h]
    omega

theorem tv_step_count (fetch : Bool) (det : Int → TVDetails) (x : TVItem)
    (n : Nat) : (tv_step fetch det x n).2 ≤ n + 1 := by
  unfold tv_step
  by_cases h : (fetch && truthy_id x.tmdb_id) = true
  · rw [if_pos h]
  · rw [if_neg h]
    omega

/-- C2 (amended): for every catalog collection call with
`max_results ≥ 1`, the returned sequence (movies and TV alike) has length
at most `max_results`; at `max_results = 0` the loop still emits the first
item because the break check runs after the append (see the
counterexample theorem). -/
theorem catalog_results_length_le (fetch : Bool) (detM : Int → MovieDetails)
    (detT : Int → TVDetails) (cap : Nat) (hcap : 1 ≤ cap)
    (shuffledM : List MItem) (shuffledT : List TVItem) :
    (get_movies_results fetch detM cap shuffledM).1.length ≤ cap ∧
    (get_tv_results fetch detT cap shuffledT).1.length ≤ cap :=
  ⟨trunc_loop_length_le _ cap shuffledM [] 0 (by simpa using hcap),
   trunc_loop_length_le _ cap shuffledT [] 0 (by simpa using hcap)⟩

/-- Witness for the C2 theorem at `max_results = 1`. -/
theorem catalog_results_length_le_witness :
    (get_movies_results false (fun _ => ⟨none, none⟩) 1
      [⟨some 1, "m1", none, ""⟩, ⟨some 2, "m2", none, ""⟩]).1.length ≤ 1 ∧
    (get_tv_results false (fun _ => ⟨none, none, none, none, [], []⟩) 1
      [⟨some 3, "t1", none, none, none, none, [], []⟩]).1.length ≤ 1 :=
  catalog_results_length_le false (fun _ => ⟨none, none⟩)
    (fun _ => ⟨none, none, none, none, [], []⟩) 1 (by decide)
    [⟨some 1, "m1", none, ""⟩, ⟨some 2, "m2", none, ""⟩]
    [⟨some 3, "t1", none, none, none, none, [], []⟩]

/-- C2 counterexample: with `max_results = 0` and a single-item
deduplicated merge (its own shuffle), the movie loop still returns one
item, so the output length exceeds `max_results`. -/
theorem catalog_results_length_cap_zero :
    ¬ ((get_movies_results false (fun _ => ⟨none, none⟩) 0
        (merge_dedup MItem.tmdb_id [⟨some 1, "Item", none, ""⟩] [] [])).1.length ≤ 0) := by
  decide

/-- C5 (amended): for every catalog collection call with
`max_results ≥ 1`, at most `max_results` detail lookups are performed
(movies and TV alike), regardless of the listing input; at
`max_results = 0` a single lookup can still happen because the detail
lookup precedes the break check (see the counterexample theorem). -/
theorem catalog_detail_lookups_le (fetch : Bool) (detM : Int → MovieDetails)
    (detT : Int → TVDetails) (cap : Nat) (hcap : 1 ≤ cap)
    (shuffledM : List MItem) (shuffledT : List TVItem) :
    (get_movies_results fetch detM cap shuffledM).2 ≤ cap ∧
    (get_tv_results fetch detT cap shuffledT).2 ≤ cap := by
  constructor
  · have h := trunc_loop_count_le (movie_step fetch detM) cap
      (movie_step_count fetch detM) shuffledM [] 0 (by simpa using hcap)
    simpa using h
  · have h := trunc_loop_count_le (tv_step fetch detT) cap
      (tv_step_count fetch detT) shuffledT [] 0 (by simpa using hcap)
    simpa using h

/-- Witness for the C5 theorem at `max_results = 1`. -/
theorem catalog_detail_lookups_le_witness :
    (get_movies_results true (fun _ => ⟨some 120, some "tag"⟩) 1
      [⟨some 1, "m1", none, ""⟩, ⟨some 2, "m2", none, ""⟩]).2 ≤ 1 ∧
    (get_tv_results true (fun _ => ⟨none, none, none, none, [], []⟩) 1
      [⟨some 3, "t1", none, none, none, none, [], []⟩]).2 ≤ 1 :=
  catalog_detail_lookups_le true (fun _ => ⟨some 120, some "tag"⟩)
    (fun _ => ⟨none, none, none, none, [], []⟩) 1 (by decide)
    [⟨some 1, "m1", none, ""⟩, ⟨some 2, "m2", none, ""⟩]
    [⟨some 3, "t1", none, none, none, none, [], []⟩]

/-- C5 counterexample: with `max_results = 0`, `fetch_details` set and one
detail-needing item in the deduplicated merge, the movie loop performs one
detail lookup, exceeding `max_results`. -/
theorem catalog_detail_lookups_cap_zero :
    ¬ ((get_movies_results true (fun _ => ⟨none, none⟩) 0
        (merge_dedup MItem.tmdb_id [⟨some 1, "Item", none, ""⟩] [] [])).2 ≤ 0) := by
  decide

/-- C6: in both catalog paths, the deduplicated merge of the primary,
secondary and discovery buckets contains no two items with the same id,
and for every nonzero id the item kept is the first occurrence of that id
in the primary → secondary → discovery concatenation. -/
theorem merge_dedup_unique_first_occurrence
    (pM sM dM : List MItem) (pT sT dT : List TVItem) :
    ((merge_dedup MItem.tmdb_id pM sM dM).Pairwise
        fun a b => a.tmdb_id ≠ b.tmdb_id) ∧
    (∀ i : Int, i ≠ 0 →
      ((merge_dedup MItem.tmdb_id pM sM dM).find? fun x => x.tmdb_id == some i) =
        (pM ++ sM ++ dM).find? fun x => x.tmdb_id == some i) ∧
    ((merge_dedup TVItem.tmdb_id pT sT dT).Pairwise
        fun a b => a.tmdb_id ≠ b.tmdb_id) ∧
    (∀ i : Int, i ≠ 0 →
      ((merge_dedup TVItem.tmdb_id pT sT dT).find? fun x => x.tmdb_id == some i) =
        (pT ++ sT ++ dT).find? fun x => x.tmdb_id == some i) :=
  ⟨dedup_by_id_pairwise _ [] _,
   fun i hi => dedup_by_id_find_eq _ i hi [] _ (List.not_mem_nil i),
   dedup_by_id_pairwise _ [] _,
   fun i hi => dedup_by_id_find_eq _ i hi [] _ (List.not_mem_nil i)⟩

/-- Witness for the C6 theorem: id 7 occurs in both the primary and the
secondary bucket; the kept occurrence is the primary one. -/
theorem merge_dedup_unique_first_occurrence_witness :
    ((merge_dedup MItem.tmdb_id [⟨some 7, "first", none, ""⟩]
        [⟨some 7, "second", none, ""⟩] []).find? fun x => x.tmdb_id == some 7) =
      (([⟨some 7, "first", none, ""⟩] : List MItem) ++
        ([⟨some 7, "second", none, ""⟩] : List MItem) ++
        ([] : List MItem)).find? fun x => x.tmdb_id == some 7 :=
  (merge_dedup_unique_first_occurrence [⟨some 7, "first", none, ""⟩]
    [⟨some 7, "second", none, ""⟩] [] [] [] []).2.1 7 (by decide)

/-- C10: every item surviving the deduplicated merge carries a non-null,
non-zero provider id (items with an absent, null or zero id are excluded),
and this invariant persists through the shuffle and the
truncation/backfill loop to the returned items, in both catalog paths. -/
theorem catalog_results_ids_truthy (fetch : Bool) (detM : Int → MovieDetails)
    (detT : Int → TVDetails) (cap : Nat)
    (pM sM dM : List MItem) (pT sT dT : List TVItem)
    (shuffledM : List MItem) (shuffledT : List TVItem)
    (hM : shuffledM.Perm (merge_dedup MItem.tmdb_id pM sM dM))
    (hT : shuffledT.Perm (merge_dedup TVItem.tmdb_id pT sT dT)) :
    (∀ x ∈ merge_dedup MItem.tmdb_id pM sM dM, truthy_id x.tmdb_id = true) ∧
    (∀ x ∈ (get_movies_results fetch detM cap shuffledM).1,
      truthy_id x.tmdb_id = true) ∧
    (∀ x ∈ merge_dedup TVItem.tmdb_id pT sT dT, truthy_id x.tmdb_id = true) ∧
    (∀ x ∈ (get_tv_results fetch detT cap shuffledT).1,
      truthy_id x.tmdb_id = true) := by
  have keyM : ∀ x ∈ merge_dedup MItem.tmdb_id pM sM dM, truthy_id x.tmdb_id = true := by
    intro x hx
    obtain ⟨-, i, hgi, hi0, -⟩ := mem_dedup_by_id MItem.tmdb_id [] _ x hx
    simp [truthy_id, hgi, hi0]
  have keyT : ∀ x ∈ merge_dedup TVItem.tmdb_id pT sT dT, truthy_id x.tmdb_id = true := by
    intro x hx
    obtain ⟨-, i, hgi, hi0, -⟩ := mem_dedup_by_id TVItem.tmdb_id [] _ x hx
    simp [truthy_id, hgi, hi0]
  refine ⟨keyM, ?_, keyT, ?_⟩
  · intro x hx
    rcases trunc_loop_mem _ cap shuffledM [] 0 x hx with h | ⟨y, m, hy, hxy⟩
    · simp at h
    · have hym : y ∈ merge_dedup MItem.tmdb_id pM sM dM := hM.mem_iff.mp hy
      rw [hxy, movie_step_id]
      exact keyM y hym
  · intro x hx
    rcases trunc_loop_mem _ cap shuffledT [] 0 x hx with h | ⟨y, m, hy, hxy⟩
    · simp at h
    · have hym : y ∈ merge_dedup TVItem.tmdb_id pT sT dT := hT.mem_iff.mp hy
      rw [hxy, tv_step_id]
      exact keyT y hym

/-- Witness for the C10 theorem with the identity shuffle on a mixed
bucket containing absent, zero and valid ids: the surviving item with id 2
has a truthy id. -/
theorem catalog_results_ids_truthy_witness :
    truthy_id (MItem.tmdb_id ⟨some 2, "ok", none, ""⟩) = true :=
  (catalog_results_ids_truthy false (fun _ => ⟨none, none⟩)
    (fun _ => ⟨none, none, none, none, [], []⟩) 5
    [⟨none, "no-id", none, ""⟩, ⟨some 0, "zero-id", none, ""⟩,
      ⟨some 2, "ok", none, ""⟩] [] [] [] [] []
    (merge_dedup MItem.tmdb_id
      [⟨none, "no-id", none, ""⟩, ⟨some 0, "zero-id", none, ""⟩,
        ⟨some 2, "ok", none, ""⟩] [] []) []
    (List.Perm.refl _) (List.Perm.refl _)).2.1
    ⟨some 2, "ok", none, ""⟩ (by decide)

theorem zero_shows_confidence_value (kwInText : String → String → Bool)
    (epDurations : String → List Nat) :
    (podcast_profile kwInText epDurations []).confidence_score = 8 / 25 := by
  have h : analyze_show_preferences kwInText epDurations [] =
      { genres := [], publishers := [], languages := [], explicit_tolerance := 0,
        avg_episode_duration := 0, total_shows := 0 } := by
    simp [analyze_show_preferences]
  have hc : calculate_confidence_score []
      ({ genres := [], publishers := [], languages := [], explicit_tolerance := 0,
         avg_episode_duration := 0, total_shows := 0 } : ShowAnalysis) = 8 / 25 := by
    simp [calculate_confidence_score]
    norm_num
  simp [podcast_profile, format_analysis_output, h, hc]

/-- C4 (amended): with zero saved podcast shows the produced profile has
`total_shows = 0` and `listening_frequency = "none"`, but
`confidence_score = 0.32` (8/25), not 0.0: the metadata-quality factor's
comparison `0 >= 0 * 0.8` holds vacuously (contributing 0.2) and the
duration/language/publisher factors contribute nonzero baselines
(0.05 + 0.05 + 0.02). -/
theorem zero_shows_profile (kwInText : String → String → Bool)
    (epDurations : String → List Nat) :
    (podcast_profile kwInText epDurations []).total_shows = 0 ∧
    (podcast_profile kwInText epDurations []).listening_frequency = "none" ∧
    (podcast_profile kwInText epDurations []).confidence_score = 8 / 25 := by
  have h : analyze_show_preferences kwInText epDurations [] =
      { genres := [], publishers := [], languages := [], explicit_tolerance := 0,
        avg_episode_duration := 0, total_shows := 0 } := by
    simp [analyze_show_preferences]
  refine ⟨?_, ?_, zero_shows_confidence_value kwInText epDurations⟩ <;>
    simp [podcast_profile, format_analysis_output, h, listening_frequency_of]

/-- C4 counterexample: at zero saved shows the confidence score the code
produces is 8/25 = 0.32, which is not the 0.0 the claim states. -/
theorem zero_shows_confidence_not_zero :
    (podcast_profile (fun _ _ => false) (fun _ => []) []).confidence_score = 8 / 25 ∧
    ¬ (podcast_profile (fun _ _ => false) (fun _ => []) []).confidence_score = 0 := by
  have h := zero_shows_confidence_value (fun _ _ => false) fun _ => []
  exact ⟨h, by rw [h]; norm_num⟩

/-- C7: the episode sampler returns the whole flattened list when its size
is at most the cap, and otherwise — given `random.sample`'s contract of
returning `cap` elements chosen from the population — returns exactly
`cap` episodes, all drawn from the input. -/
theorem episode_selection_spec {α : Type} (sample : List α → Nat → List α)
    (episodes : List α) (max_candidates : Nat)
    (hsample : max_candidates < episodes.length →
      (sample episodes max_candidates).length = max_candidates ∧
        ∀ x ∈ sample episodes max_candidates, x ∈ episodes) :
    (episodes.length ≤ max_candidates →
      apply_episode_selection_strategy sample episodes max_candidates = episodes) ∧
    (max_candidates < episodes.length →
      (apply_episode_selection_strategy sample episodes max_candidates).length =
          max_candidates ∧
        ∀ x ∈ apply_episode_selection_strategy sample episodes max_candidates,
          x ∈ episodes) := by
  constructor
  · intro h
    simp [apply_episode_selection_strategy, h]
  · intro h
    rw [apply_episode_selection_strategy, if_neg (not_le.mpr h)]
    exact hsample h

/-- Witness for the C7 theorem: `take` satisfies the sampling contract on
a three-element list with cap 2. -/
theorem episode_selection_spec_witness :
    (apply_episode_selection_strategy (fun (l : List Nat) k => l.take k)
        [1, 2, 3] 2).length = 2 ∧
      ∀ x ∈ apply_episode_selection_strategy (fun (l : List Nat) k => l.take k)
          [1, 2, 3] 2, x ∈ [1, 2, 3] :=
  (episode_selection_spec (fun l k => l.take k) [1, 2, 3] 2
    fun _ => ⟨by decide, by decide⟩).2 (by decide)

/-- C9: the satisfaction buckets are closed above: an aggregated reaction
total whose satisfaction score is exactly 0.8 is classified "high", one
with exactly 0.6 "moderate", and one with exactly 0.4 "low". -/
theorem satisfaction_bucket_boundaries (t : ReactionTotals) :
    (satisfaction_score (positive_reactions t) (negative_reactions t) = 0.8 →
      categorize_satisfaction
        (satisfaction_score (positive_reactions t) (negative_reactions t)) = "high") ∧
    (satisfaction_score (positive_reactions t) (negative_reactions t) = 0.6 →
      categorize_satisfaction
        (satisfaction_score (positive_reactions t) (negative_reactions t)) =
          "moderate") ∧
    (satisfaction_score (positive_reactions t) (negative_reactions t) = 0.4 →
      categorize_satisfaction
        (satisfaction_score (positive_reactions t) (negative_reactions t)) = "low") := by
  refine ⟨fun h => ?_, fun h => ?_, fun h => ?_⟩ <;> rw [h] <;>
    norm_num [categorize_satisfaction]

/-- Witness for the C9 theorem: totals 4👍/1👎, 3👍/2👎 and 2👍/3👎 give
scores exactly 0.8, 0.6 and 0.4 and land in "high", "moderate", "low". -/
theorem satisfaction_bucket_boundaries_witness :
    categorize_satisfaction (satisfaction_score
      (positive_reactions ⟨4, 1, 0, 0, 0, 0⟩)
      (negative_reactions ⟨4, 1, 0, 0, 0, 0⟩)) = "high" ∧
    categorize_satisfaction (satisfaction_score
      (positive_reactions ⟨3, 2, 0, 0, 0, 0⟩)
      (negative_reactions ⟨3, 2, 0, 0, 0, 0⟩)) = "moderate" ∧
    categorize_satisfaction (satisfaction_score
      (positive_reactions ⟨2, 3, 0, 0, 0, 0⟩)
      (negative_reactions ⟨2, 3, 0, 0, 0, 0⟩)) = "low" :=
  ⟨(satisfaction_bucket_boundaries ⟨4, 1, 0, 0, 0, 0⟩).1
      (by norm_num [satisfaction_score, positive_reactions, negative_reactions]),
   (satisfaction_bucket_boundaries ⟨3, 2, 0, 0, 0, 0⟩).2.1
      (by norm_num [satisfaction_score, positive_reactions, negative_reactions]),
   (satisfaction_bucket_boundaries ⟨2, 3, 0, 0, 0, 0⟩).2.2
      (by norm_num [satisfaction_score, positive_reactions, negative_reactions])⟩

/-! ### Genre-weight lemmas -/

theorem infer_genre_nodup (kwInText : String → String → Bool) (text : String) :
    (infer_genre_from_text kwInText text).Nodup := by
  unfold infer_genre_from_text
  by_cases h : text = ""
  · simp [h]
  · rw [if_neg h]
    have hkeys : (podcast_genre_mapping.map Prod.fst).Nodup := by decide
    exact List.Nodup.sublist ((List.filter_sublist _).map Prod.fst) hkeys

theorem count_flatMap_le {α : Type} (f : α → List String) (g : String) :
    ∀ l : List α, (∀ x ∈ l, (f x).count g ≤ 1) →
      (l.flatMap f).count g ≤ l.length := by
  intro l
  induction l with
  | nil => intro _; simp
  | cons x xs ih =>
    intro hf
    rw [List.flatMap_cons, List.count_append]
    have h1 := hf x (List.mem_cons_self _ _)
    have h2 := ih fun y hy => hf y (List.mem_cons_of_mem _ hy)
    simp only [List.length_cons]
    omega

theorem round2_nonneg_le_one {q : ℚ} (h0 : 0 ≤ q) (h1 : q ≤ 1) :
    0 ≤ round2 q ∧ round2 q ≤ 1 := by
  have hl : (0 : ℤ) ≤ round (100 * q) := by
    rw [round_eq]
    refine Int.le_floor.mpr ?_
    push_cast
    linarith
  have hu : round (100 * q) ≤ 100 := by
    rw [round_eq]
    have h2 : (⌊100 * q + 1 / 2⌋ : ℤ) < 101 := by
      refine Int.floor_lt.mpr ?_
      push_cast
      linarith
    omega
  unfold round2
  constructor
  · apply div_nonneg _ (by norm_num)
    exact_mod_cast hl
  · rw [div_le_one (by norm_num)]
    exact_mod_cast hu

/-- C8 (amended): every genre weight of the podcast preference analyzer
lies in [0, 1] unconditionally; for the movie/TV preference aggregator
every genre weight lies in [0, 1] provided no input item lists the same
genre name twice in its `genre_ids` (the code counts each `genre_ids`
entry, so a duplicated genre id in one item pushes that genre's weight
above 1 — see the counterexample theorem). -/
theorem genre_weights_in_unit_interval :
    (∀ (kwInText : String → String → Bool) (epDurations : String → List Nat)
        (saved : List SavedShowItem) (p : String × ℚ),
        p ∈ (analyze_show_preferences kwInText epDurations saved).genres →
        0 ≤ p.2 ∧ p.2 ≤ 1) ∧
    (∀ (gname : Int → String) (favorites rated watchlist : List CItem)
        (g : String),
        (∀ it ∈ favorites ++ rated ++ watchlist, (it.genre_ids.map gname).Nodup) →
        0 ≤ favorite_genre_weight gname favorites rated watchlist g ∧
          favorite_genre_weight gname favorites rated watchlist g ≤ 1) := by
  constructor
  · intro kwInText epDurations saved p hp
    by_cases hne : saved = []
    · subst hne
      simp [analyze_show_preferences] at hp
    · have hp' : p ∈ (counter_entries
          (genre_occurrences_of_shows kwInText saved)).map
            fun q => (q.1, (q.2 : ℚ) / (saved.length : ℚ)) := by
        simpa [analyze_show_preferences, hne] using hp
      obtain ⟨q, hq, rfl⟩ := List.mem_map.mp hp'
      obtain ⟨s, hs, rfl⟩ := List.mem_map.mp (by simpa [counter_entries] using hq)
      have hcount : (genre_occurrences_of_shows kwInText saved).count s ≤
          saved.length := by
        unfold genre_occurrences_of_shows
        refine count_flatMap_le _ s saved ?_
        intro item hitem
        cases hsd : item.showData with
        | none => simp
        | some sh =>
          simp only [hsd]
          exact List.nodup_iff_count_le_one.mp
            (infer_genre_nodup kwInText (show_text sh)) s
      have hpos : 0 < saved.length := List.length_pos.mpr hne
      constructor
      · positivity
      · show ((genre_occurrences_of_shows kwInText saved).count s : ℚ) /
          (saved.length : ℚ) ≤ 1
        rw [div_le_one (by exact_mod_cast hpos)]
        exact_mod_cast hcount
  · intro gname favorites rated watchlist g hnd
    have hin : ∀ it ∈ all_content favorites rated watchlist,
        (it.genre_ids.map gname).Nodup := fun it hit =>
      hnd it (mem_dedup_by_id CItem.id [] _ it hit).1
    have hcount : (genre_occurrences_of_content gname
        (all_content favorites rated watchlist)).count g ≤
        (all_content favorites rated watchlist).length := by
      unfold genre_occurrences_of_content
      refine count_flatMap_le _ g _ ?_
      intro it hit
      exact List.nodup_iff_count_le_one.mp (hin it hit) g
    have h0 : 0 ≤ ((genre_occurrences_of_content gname
        (all_content favorites rated watchlist)).count g : ℚ) /
        ((all_content favorites rated watchlist).length : ℚ) := by positivity
    have h1 : ((genre_occurrences_of_content gname
        (all_content favorites rated watchlist)).count g : ℚ) /
        ((all_content favorites rated watchlist).length : ℚ) ≤ 1 := by
      rcases Nat.eq_zero_or_pos (all_content favorites rated watchlist).length
        with hz | hpos
      · rw [hz]
        simp
      · rw [div_le_one (by exact_mod_cast hpos)]
        exact_mod_cast hcount
    have hres := round2_nonneg_le_one h0 h1
    simpa [favorite_genre_weight] using hres

/-- Witness for the C8 theorem: one item with the single genre id 18
(Drama) under the fallback genre table. -/
theorem genre_weights_in_unit_interval_witness :
    0 ≤ favorite_genre_weight fallback_genre_name
        [{ id := some 1, genre_ids := [18] }] [] [] "Drama" ∧
      favorite_genre_weight fallback_genre_name
        [{ id := some 1, genre_ids := [18] }] [] [] "Drama" ≤ 1 :=
  genre_weights_in_unit_interval.2 fallback_genre_name
    [{ id := some 1, genre_ids := [18] }] [] [] "Drama" (by decide)

/-- C8 counterexample: a single favorite item whose `genre_ids` lists 18
(Drama) twice gives Drama the weight `round(2/1, 2) = 2`, outside [0, 1]. -/
theorem duplicate_genre_weight_exceeds_one :
    favorite_genre_weight fallback_genre_name
        [{ id := some 1, genre_ids := [18, 18] }] [] [] "Drama" = 2 ∧
    ¬ (favorite_genre_weight fallback_genre_name
        [{ id := some 1, genre_ids := [18, 18] }] [] [] "Drama" ≤ 1) := by
  have hocc : (genre_occurrences_of_content fallback_genre_name
      (all_content [{ id := some 1, genre_ids := [18, 18] }] [] [])).count
        "Drama" = 2 := by decide
  have hlen : (all_content [{ id := some 1, genre_ids := [18, 18] }] [] []).length
      = 1 := by decide
  have h : favorite_genre_weight fallback_genre_name
      [{ id := some 1, genre_ids := [18, 18] }] [] [] "Drama" = 2 := by
    simp only [favorite_genre_weight]
    rw [hocc, hlen]
    norm_num [round2, round_eq]
  exact ⟨h, by rw [h]; norm_num⟩
